import Mathlib

/-!
Shallow embedding of the TinyLang tree-walking interpreter (the `run` /
`execute` / `evalExpr` translation unit together with the AST it interprets)
and proofs about its specified behaviour.

Modelling conventions:
* C++ `int` and `char` are modelled as `Int` (no claim below depends on
  fixed-width overflow or on 8-bit narrowing of `char`).
* C++ `double` is modelled as `Rat`; no claim below depends on binary
  floating-point rounding, only on which payload field of a tagged value
  is consulted.
* `std::unordered_map` is modelled as an association list (`lookupA` /
  `insertA`); the places where the interpreter iterates over a map touch
  each (distinct) key once, so iteration order is immaterial to the final
  state and the list order is a faithful deterministic choice.
* The four scope stacks store the innermost frame first, so C++
  `stack.back()` is the head, `push_back` is cons, and iterating
  `rbegin()..rend()` is plain left-to-right traversal.
* Every throwing operation returns `Res.err`; `vector::operator[]` out of
  range and dereferencing the null `ClassDef*` that
  `unordered_map::operator[]` inserts for a missing key are undefined
  behaviour and return `Res.ub`.
* The interpreter's unbounded recursion/loops are driven by a fuel
  parameter; `Res.fuelOut` marks exhaustion and is never identified with
  any behaviour of the C++ program.
-/

namespace TinyLang

/-- Token kinds consulted by the evaluator (operator subset of the C++
`TokenType` enumeration). -/
inductive TokenType where
  | PLUS | MINUS | MULTIPLICATION | DIVISION
  | GREATERTHEN | LESSTHEN | EQUALTO | NOTEQUALTO
  | AND | OR | NOT
deriving DecidableEq, Repr

/-- Association-list lookup: first binding of the key wins (models
`unordered_map::count` / `at` / `find`). -/
def lookupA {α : Type} (m : List (String × α)) (k : String) : Option α :=
  match m with
  | [] => none
  | (k', v) :: rest => if k' = k then some v else lookupA rest k

/-- Association-list insert-or-update (models `unordered_map::operator[]`
assignment). -/
def insertA {α : Type} (m : List (String × α)) (k : String) (v : α) : List (String × α) :=
  match m with
  | [] => [(k, v)]
  | (k', v') :: rest => if k' = k then (k, v) :: rest else (k', v') :: insertA rest k v

/-- Bounds-checked vector read, modelling `std::vector::at` (a negative
index converts to a huge `size_t`, hence is also out of range). -/
def vecAt {α : Type} (a : List α) (idx : Int) : Option α :=
  if 0 ≤ idx then a.get? idx.toNat else none

/-- Unchecked element write, modelling `std::vector::operator[]`:
`none` when the index is out of range, i.e. undefined behaviour. -/
def vecSet {α : Type} (a : List α) (idx : Int) (x : α) : Option (List α) :=
  if 0 ≤ idx ∧ idx.toNat < a.length then some (a.set idx.toNat x) else none

/-- First index of a character in a string (models `std::string::find`). -/
def strFind? (s : String) (ch : Char) : Option Nat :=
  s.toList.findIdx? (fun c => c = ch)

/-- Prefix of the first `n` characters (models `substr(0, n)`). -/
def strTake (s : String) (n : Nat) : String :=
  String.mk (s.toList.take n)

/-- Substring from `pos` of length `len` (models `substr(pos, len)`). -/
def strSub (s : String) (pos len : Nat) : String :=
  String.mk ((s.toList.drop pos).take len)

/-- Suffix from `pos` (models `substr(pos)`). -/
def strDropN (s : String) (pos : Nat) : String :=
  String.mk (s.toList.drop pos)

/-- Whether a character occurs in the string
(models `find(c) != std::string::npos`). -/
def strContains (s : String) (ch : Char) : Bool :=
  (strFind? s ch).isSome

/-- Numeric value of a digit list. -/
def digitsVal (l : List Char) : Nat :=
  l.foldl (fun acc c => acc * 10 + (c.toNat - 48)) 0

/-- Model of `std::stoi`: an optional sign and at least one leading digit;
trailing non-digits are ignored; `none` models the `invalid_argument`
exception. -/
def cppStoi (s : String) : Option Int :=
  let core : Int → List Char → Option Int := fun sign rest =>
    let ds := rest.takeWhile (fun c => c.isDigit)
    if ds.isEmpty then none else some (sign * (digitsVal ds : Int))
  match s.toList with
  | '-' :: rest => core (-1) rest
  | '+' :: rest => core 1 rest
  | rest => core 1 rest

/-- The `arrayName[index]` proxy parsing that the evaluator performs on a
variable name: positions of the first `[` and `]`, requiring the bracket
pair to be ordered, yielding the array-name prefix and the text between
the brackets. -/
def proxySplit (objName : String) : Option (String × String) :=
  match strFind? objName '[', strFind? objName ']' with
  | some lb, some rb =>
      if lb < rb then some (strTake objName lb, strSub objName (lb + 1) (rb - lb - 1))
      else none
  | _, _ => none

mutual

/-- Expression AST (`ast.hpp`). -/
inductive Expr where
  | Number (value : Int)
  | FloatLiteral (value : Rat)
  | CharLiteral (value : Int)
  | BoolLiteral (value : Bool)
  | StringLiteral (value : String)
  | Variable (name : String)
  | UnaryExpr (op : TokenType) (operand : Expr)
  | BinaryExpr (op : TokenType) (left right : Expr)
  | InputExpr
  | ReadExpr (filename : String)
  | CallExpr (callee : String) (arguments : List Expr)
  | ArrayAccess (arrayName : String) (index : Expr)
  | ArrayLiteral (elements : List Expr)
  | ObjectMemberAccess (object : Expr) (member : String)
  | ObjectMethodCall (object : Expr) (method : String) (arguments : List Expr)

/-- Statement AST (`ast.hpp`). `Assignment.value` is `none` for a bare
declaration (null `unique_ptr`), `Return.value` likewise. -/
inductive Stmt where
  | Assignment (name : String) (value : Option Expr) (type : String)
  | Print (value : Expr)
  | FunctionDef (fn : FuncDef)
  | Return (value : Option Expr)
  | IfStatement (condition : Expr) (thenBranch elseBranch : List Stmt)
  | WhileStatement (condition : Expr) (body : List Stmt)
  | ForStatement (initializer : Option Stmt) (condition : Option Expr)
      (increment : Option Stmt) (body : List Stmt)
  | ExprStatement (expr : Expr)
  | ArrayAssignment (arrayName : String) (index : Expr) (value : Expr)
  | ClassDef (c : ClassDefn)
  | ObjectInstantiation (className varName : String) (arguments : List Expr)

/-- A function definition: name, parameter names, body
(the C++ `FunctionDef` node). -/
inductive FuncDef where
  | mk (name : String) (parameters : List String) (body : List Stmt)

/-- A class definition: name, base-class name (empty string for none),
ordered (type, field-name) pairs, methods (the C++ `ClassDef` node). -/
inductive ClassDefn where
  | mk (name : String) (baseClass : String)
      (fields : List (String × String)) (methods : List FuncDef)

end

def FuncDef.name : FuncDef → String
  | .mk n _ _ => n

def FuncDef.parameters : FuncDef → List String
  | .mk _ p _ => p

def FuncDef.body : FuncDef → List Stmt
  | .mk _ _ b => b

def ClassDefn.name : ClassDefn → String
  | .mk n _ _ _ => n

def ClassDefn.baseClass : ClassDefn → String
  | .mk _ b _ _ => b

def ClassDefn.fields : ClassDefn → List (String × String)
  | .mk _ _ f _ => f

def ClassDefn.methods : ClassDefn → List FuncDef
  | .mk _ _ _ m => m

/-- The tag of a runtime value. -/
inductive ValueType where
  | INT | FLOAT | CHAR | STRING
deriving DecidableEq, Repr

/-- Runtime value: a tag plus all four payload fields, exactly as the C++
`struct Value` keeps them (unused fields are zero-initialised by every
constructor, which is observable, e.g. `.i` of a float is `0`). -/
structure Value where
  type : ValueType
  i : Int
  f : Rat
  c : Int
  s : String
deriving DecidableEq, Repr

/-- `Value(int v)`. -/
def Value.ofInt (v : Int) : Value := ⟨.INT, v, 0, 0, ""⟩

/-- `Value(double v)`. -/
def Value.ofFloat (v : Rat) : Value := ⟨.FLOAT, 0, v, 0, ""⟩

/-- `Value(char v)`. -/
def Value.ofChar (v : Int) : Value := ⟨.CHAR, 0, 0, v, ""⟩

/-- `Value(const std::string&)`. -/
def Value.ofString (v : String) : Value := ⟨.STRING, 0, 0, 0, v⟩

/-- One slot of an object's field map,
`std::variant<int, double, char, std::string>`. -/
inductive FieldVal where
  | vInt (v : Int)
  | vFloat (v : Rat)
  | vChar (v : Int)
  | vString (v : String)
deriving DecidableEq, Repr

/-- Reading a field variant back as a `Value` (the `holds_alternative`
dispatch in object member access). -/
def FieldVal.toValue : FieldVal → Value
  | .vInt v => Value.ofInt v
  | .vFloat v => Value.ofFloat v
  | .vChar v => Value.ofChar v
  | .vString v => Value.ofString v

/-- A class instance: class name plus field map. -/
structure ObjectInstance where
  className : String
  fields : List (String × FieldVal)
deriving DecidableEq, Repr

/-- One line of standard output, kept symbolically (the `print` statement
streams one of the four payloads; textual formatting is outside the
embedding). -/
inductive OutCell where
  | ival (v : Int)
  | fval (v : Rat)
  | cval (v : Int)
  | sval (v : String)
deriving DecidableEq, Repr

/-- The interpreter's entire mutable state: the four parallel scope
stacks (innermost frame first; the global frame is the last element),
the global array/function/class/object tables, emitted output, pending
standard input, and the named-file environment backing `read`. -/
structure St where
  variables_stack : List (List (String × Int))
  float_variables_stack : List (List (String × Rat))
  char_variables_stack : List (List (String × Int))
  string_variables_stack : List (List (String × String))
  int_arrays : List (String × List Int)
  float_arrays : List (String × List Rat)
  char_arrays : List (String × List Int)
  bool_arrays : List (String × List Bool)
  string_arrays : List (String × List String)
  functions : List (String × FuncDef)
  class_defs : List (String × ClassDefn)
  objects : List (String × ObjectInstance)
  object_arrays : List (String × List ObjectInstance)
  output : List OutCell
  stdin_ints : List Int
  files : List (String × Int)

/-- The state at program start: one empty global frame per domain,
everything else empty. -/
def initialState : St :=
  { variables_stack := [[]]
    float_variables_stack := [[]]
    char_variables_stack := [[]]
    string_variables_stack := [[]]
    int_arrays := []
    float_arrays := []
    char_arrays := []
    bool_arrays := []
    string_arrays := []
    functions := []
    class_defs := []
    objects := []
    object_arrays := []
    output := []
    stdin_ints := []
    files := [] }

/-- Search a scope stack from the innermost frame outward
(`rbegin()..rend()` in the C++ getters). -/
def getStack {α : Type} (stk : List (List (String × α))) (name : String) : Option α :=
  stk.findSome? (fun fr => lookupA fr name)

/-- `getIntVar` without the throw: `none` plays the thrown exception,
which the variable-read path catches. -/
def getIntVar? (st : St) (name : String) : Option Int :=
  getStack st.variables_stack name

def getFloatVar? (st : St) (name : String) : Option Rat :=
  getStack st.float_variables_stack name

def getCharVar? (st : St) (name : String) : Option Int :=
  getStack st.char_variables_stack name

def getStringVar? (st : St) (name : String) : Option String :=
  getStack st.string_variables_stack name

/-- Write into the top (innermost) frame only — `setIntVar` (whose
existence check on the top frame performs the same store in both
branches). The empty-stack case is unreachable: the global frame is
never popped. -/
def setTopFrame {α : Type} (stk : List (List (String × α))) (name : String) (v : α) :
    List (List (String × α)) :=
  match stk with
  | [] => [[(name, v)]]
  | fr :: rest => insertA fr name v :: rest

/-- The search half of the write-through setters: update the innermost
frame that already binds the name, `none` when no frame does. -/
def updateInnermost {α : Type} (stk : List (List (String × α))) (name : String) (v : α) :
    Option (List (List (String × α))) :=
  match stk with
  | [] => none
  | fr :: rest =>
      if (lookupA fr name).isSome then some (insertA fr name v :: rest)
      else (updateInnermost rest name v).map (fr :: ·)

/-- Write-through: mutate the innermost frame that already binds the
name; when no frame does, fall out of the loop and create the binding
in the top frame (`stack.back()[name] = value`) — the common shape of
`setFloatVar`, `setCharVar` and `setStringVar`. -/
def setThrough {α : Type} (stk : List (List (String × α))) (name : String) (v : α) :
    List (List (String × α)) :=
  match updateInnermost stk name v with
  | some stk' => stk'
  | none => setTopFrame stk name v

def setIntVar (st : St) (name : String) (v : Int) : St :=
  { st with variables_stack := setTopFrame st.variables_stack name v }

def setFloatVar (st : St) (name : String) (v : Rat) : St :=
  { st with float_variables_stack := setThrough st.float_variables_stack name v }

def setCharVar (st : St) (name : String) (v : Int) : St :=
  { st with char_variables_stack := setThrough st.char_variables_stack name v }

def setStringVar (st : St) (name : String) (v : String) : St :=
  { st with string_variables_stack := setThrough st.string_variables_stack name v }

/-- Push one fresh frame on each scope stack (function/method entry). -/
def pushFrames (st : St) : St :=
  { st with
    variables_stack := [] :: st.variables_stack
    float_variables_stack := [] :: st.float_variables_stack
    char_variables_stack := [] :: st.char_variables_stack
    string_variables_stack := [] :: st.string_variables_stack }

/-- Pop the top frame of a stack, but only when more than the global
frame is present (`if (stack.size() > 1) stack.pop_back()`). -/
def popGuard {α : Type} (stk : List (List (String × α))) : List (List (String × α)) :=
  match stk with
  | _ :: rest@(_ :: _) => rest
  | s => s

/-- Pop one frame from each scope stack (function/method exit). -/
def popFrames (st : St) : St :=
  { st with
    variables_stack := popGuard st.variables_stack
    float_variables_stack := popGuard st.float_variables_stack
    char_variables_stack := popGuard st.char_variables_stack
    string_variables_stack := popGuard st.string_variables_stack }

/-- Mirror an object's fields into the ambient scope frames via the
per-domain setters (receiver setup of method and constructor calls). -/
def mirrorFields (st : St) (fields : List (String × FieldVal)) : St :=
  fields.foldl
    (fun st fld =>
      match fld.2 with
      | .vInt v => setIntVar st fld.1 v
      | .vFloat v => setFloatVar st fld.1 v
      | .vChar v => setCharVar st fld.1 v
      | .vString v => setStringVar st fld.1 v)
    st

/-- Top frame of a stack (C++ `stack.back()`); the stack is never empty. -/
def topFrame {α : Type} (stk : List (List (String × α))) : List (String × α) :=
  match stk with
  | [] => []
  | fr :: _ => fr

/-- The post-call field write-back value for one field name: consult the
top frame of the string, integer, floating and character stacks in that
order; `none` when no top frame binds the name (field left unchanged). -/
def writeBackVal (st : St) (fname : String) : Option FieldVal :=
  match lookupA (topFrame st.string_variables_stack) fname with
  | some v => some (.vString v)
  | none =>
    match lookupA (topFrame st.variables_stack) fname with
    | some v => some (.vInt v)
    | none =>
      match lookupA (topFrame st.float_variables_stack) fname with
      | some v => some (.vFloat v)
      | none =>
        match lookupA (topFrame st.char_variables_stack) fname with
        | some v => some (.vChar v)
        | none => none

/-- Write-back driven by a class's own declared field list
(`for (auto& field : class_defs[className]->fields)`), used after
constructors and object-array method calls. -/
def writeBackOwn (st : St) (ownFields : List (String × String))
    (fields : List (String × FieldVal)) : List (String × FieldVal) :=
  ownFields.foldl
    (fun acc fld =>
      match writeBackVal st fld.2 with
      | some v => insertA acc fld.2 v
      | none => acc)
    fields

/-- Write-back driven by the instance's own field map
(`for (auto& field : inst.fields)`), used after plain object method
calls. -/
def writeBackInst (st : St) (fields : List (String × FieldVal)) : List (String × FieldVal) :=
  fields.map
    (fun fld =>
      match writeBackVal st fld.1 with
      | some v => (fld.1, v)
      | none => fld)

/-- Default field initialisation from a (type, name) list: `int` and
`bool` fields start at integer 0, `float` at 0.0, `char` at `'\0'`,
`string` empty; any other type string adds nothing. -/
def defaultFields (fields : List (String × String)) : List (String × FieldVal) :=
  fields.foldl
    (fun acc fld =>
      if fld.1 = "int" then insertA acc fld.2 (.vInt 0)
      else if fld.1 = "float" then insertA acc fld.2 (.vFloat 0)
      else if fld.1 = "char" then insertA acc fld.2 (.vChar 0)
      else if fld.1 = "string" then insertA acc fld.2 (.vString "")
      else if fld.1 = "bool" then insertA acc fld.2 (.vInt 0)
      else acc)
    []

/-- Result of class-hierarchy traversal: value, thrown error, or
non-termination (cyclic inheritance). -/
inductive MRes (α : Type) where
  | ok (a : α)
  | err (msg : String)
  | fuelOut
deriving DecidableEq, Repr

/-- Merge one field into the accumulated list: a field with the same
name (second component) is overridden in place, otherwise the field is
appended. -/
def overrideField (out : List (String × String)) (fld : String × String) :
    List (String × String) :=
  match out with
  | [] => [fld]
  | f :: rest => if f.2 = fld.2 then fld :: rest else f :: overrideField rest fld

/-- The `collectFields` per-class loop: fold the class's own fields into
the inherited list. -/
def addFields (out : List (String × String)) (flds : List (String × String)) :
    List (String × String) :=
  flds.foldl overrideField out

/-- Merge one method into the accumulated list, overriding in place by
method name. -/
def overrideMethod (out : List FuncDef) (m : FuncDef) : List FuncDef :=
  match out with
  | [] => [m]
  | f :: rest => if f.name = m.name then m :: rest else f :: overrideMethod rest m

def addMethods (out : List FuncDef) (ms : List FuncDef) : List FuncDef :=
  ms.foldl overrideMethod out

/-- `collectFields`: recursively flatten the inheritance chain
base-first, then fold in this class's own fields with in-place override;
a named base class missing from the registry is an error. -/
def collectFields (fuel : Nat) (cds : List (String × ClassDefn)) (cd : ClassDefn)
    (out : List (String × String)) : MRes (List (String × String)) :=
  match fuel with
  | 0 => .fuelOut
  | fuel + 1 =>
    if cd.baseClass = "" then .ok (addFields out cd.fields)
    else
      match lookupA cds cd.baseClass with
      | none => .err ("Base class not found: " ++ cd.baseClass)
      | some base =>
        match collectFields fuel cds base out with
        | .ok out1 => .ok (addFields out1 cd.fields)
        | e => e

/-- `collectMethods`: the identical algorithm for methods. -/
def collectMethods (fuel : Nat) (cds : List (String × ClassDefn)) (cd : ClassDefn)
    (out : List FuncDef) : MRes (List FuncDef) :=
  match fuel with
  | 0 => .fuelOut
  | fuel + 1 =>
    if cd.baseClass = "" then .ok (addMethods out cd.methods)
    else
      match lookupA cds cd.baseClass with
      | none => .err ("Base class not found: " ++ cd.baseClass)
      | some base =>
        match collectMethods fuel cds base out with
        | .ok out1 => .ok (addMethods out1 cd.methods)
        | e => e

/-- Outcome of evaluating/executing: success with a result and the new
state, a thrown `std::runtime_error`, undefined behaviour, or fuel
exhaustion. -/
inductive Res (α : Type) where
  | ok (a : α) (st : St)
  | err (msg : String)
  | ub
  | fuelOut

/-- Sequencing on `Res`: thrown errors, undefined behaviour and fuel
exhaustion propagate. -/
def Res.andThen {α β : Type} (r : Res α) (k : α → St → Res β) : Res β :=
  match r with
  | .ok a st => k a st
  | .err m => .err m
  | .ub => .ub
  | .fuelOut => .fuelOut

/-- Selecting an out-cell for `print` by the value's tag. -/
def outCellOf (v : Value) : OutCell :=
  if v.type = .STRING then .sval v.s
  else if v.type = .FLOAT then .fval v.f
  else if v.type = .CHAR then .cval v.c
  else .ival v.i

/-- Pure part of binary-operator evaluation, applied after both operands
were evaluated (everything but the short-circuiting `&&`/`||`): string
concatenation for `+` with a string operand (non-string operands are
stringified via their **integer** payload), float promotion, char
comparisons, and integer arithmetic with `char` projected to its code. -/
def binArith (op : TokenType) (left right : Value) : MRes Value :=
  if op = .PLUS ∧ (left.type = .STRING ∨ right.type = .STRING) then
    .ok (Value.ofString
      ((if left.type = .STRING then left.s else toString left.i) ++
       (if right.type = .STRING then right.s else toString right.i)))
  else if left.type = .FLOAT ∨ right.type = .FLOAT then
    let l := if left.type = .FLOAT then left.f else (left.i : Rat)
    let r := if right.type = .FLOAT then right.f else (right.i : Rat)
    match op with
    | .PLUS => .ok (Value.ofFloat (l + r))
    | .MINUS => .ok (Value.ofFloat (l - r))
    | .MULTIPLICATION => .ok (Value.ofFloat (l * r))
    | .DIVISION =>
        if r = 0 then .err "Division by zero" else .ok (Value.ofFloat (l / r))
    | .GREATERTHEN => .ok (Value.ofInt (if r < l then 1 else 0))
    | .LESSTHEN => .ok (Value.ofInt (if l < r then 1 else 0))
    | .EQUALTO => .ok (Value.ofInt (if l = r then 1 else 0))
    | .NOTEQUALTO => .ok (Value.ofInt (if l = r then 0 else 1))
    | _ => .err "Unsupported binary operator"
  else if left.type = .CHAR ∧ right.type = .CHAR then
    match op with
    | .EQUALTO => .ok (Value.ofInt (if left.c = right.c then 1 else 0))
    | .NOTEQUALTO => .ok (Value.ofInt (if left.c = right.c then 0 else 1))
    | _ => .err "Unsupported binary operator for char"
  else
    let l := if left.type = .INT then left.i else left.c
    let r := if right.type = .INT then right.i else right.c
    match op with
    | .PLUS => .ok (Value.ofInt (l + r))
    | .MINUS => .ok (Value.ofInt (l - r))
    | .MULTIPLICATION => .ok (Value.ofInt (l * r))
    | .DIVISION =>
        if r = 0 then .err "Division by zero" else .ok (Value.ofInt (Int.tdiv l r))
    | .GREATERTHEN => .ok (Value.ofInt (if r < l then 1 else 0))
    | .LESSTHEN => .ok (Value.ofInt (if l < r then 1 else 0))
    | .EQUALTO => .ok (Value.ofInt (if l = r then 1 else 0))
    | .NOTEQUALTO => .ok (Value.ofInt (if l = r then 0 else 1))
    | _ => .err "Unsupported binary operator"

/-- Binding an evaluated argument to a parameter name in the stack of
the value's tag (the per-argument body of the binding loops). -/
def bindOne (st : St) (param : String) (argVal : Value) : St :=
  if argVal.type = .FLOAT then setFloatVar st param argVal.f
  else if argVal.type = .CHAR then setCharVar st param argVal.c
  else if argVal.type = .STRING then setStringVar st param argVal.s
  else setIntVar st param argVal.i

/-- The error message of `std::vector::at` out of range. -/
def atMsg : String := "vector::at: index out of range"

mutual

/-- `evalExpr`: expression evaluation. Fuel decreases on every recursive
call. -/
def evalExpr : Nat → St → Expr → Res Value
  | 0, _, _ => .fuelOut
  | _ + 1, st, .Number v => .ok (Value.ofInt v) st
  | _ + 1, st, .FloatLiteral v => .ok (Value.ofFloat v) st
  | _ + 1, st, .CharLiteral v => .ok (Value.ofChar v) st
  | _ + 1, st, .BoolLiteral v => .ok (Value.ofInt (if v then 1 else 0)) st
  | _ + 1, st, .StringLiteral v => .ok (Value.ofString v) st
  | _ + 1, st, .Variable name =>
    match getIntVar? st name with
    | some v => .ok (Value.ofInt v) st
    | none =>
      match getFloatVar? st name with
      | some v => .ok (Value.ofFloat v) st
      | none =>
        match getCharVar? st name with
        | some v => .ok (Value.ofChar v) st
        | none =>
          match getStringVar? st name with
          | some v => .ok (Value.ofString v) st
          | none => .err ("Undefined variable: " ++ name)
  | fuel + 1, st, .UnaryExpr op operand =>
    (evalExpr fuel st operand).andThen fun v st1 =>
      if op = .NOT then .ok (Value.ofInt (if v.i = 0 then 1 else 0)) st1
      else .err "Unsupported unary operator"
  | fuel + 1, st, .BinaryExpr op left right =>
    if op = .AND then
      (evalExpr fuel st left).andThen fun l st1 =>
        if l.i = 0 then .ok (Value.ofInt 0) st1
        else
          (evalExpr fuel st1 right).andThen fun r st2 =>
            .ok (Value.ofInt (if l.i ≠ 0 ∧ r.i ≠ 0 then 1 else 0)) st2
    else if op = .OR then
      (evalExpr fuel st left).andThen fun l st1 =>
        if l.i ≠ 0 then .ok (Value.ofInt 1) st1
        else
          (evalExpr fuel st1 right).andThen fun r st2 =>
            .ok (Value.ofInt (if l.i ≠ 0 ∨ r.i ≠ 0 then 1 else 0)) st2
    else
      (evalExpr fuel st left).andThen fun l st1 =>
        (evalExpr fuel st1 right).andThen fun r st2 =>
          match binArith op l r with
          | .ok v => .ok v st2
          | .err m => .err m
          | .fuelOut => .fuelOut
  | _ + 1, st, .InputExpr =>
    match st.stdin_ints with
    | v :: rest => .ok (Value.ofInt v) { st with stdin_ints := rest }
    | [] => .ok (Value.ofInt 0) st
  | _ + 1, st, .ReadExpr filename =>
    match lookupA st.files filename with
    | some v => .ok (Value.ofInt v) st
    | none => .err ("Failed to open file: " ++ filename)
  | fuel + 1, st, .CallExpr callee arguments =>
    match lookupA st.functions callee with
    | none => .err ("Undefined function: " ++ callee)
    | some func =>
      if arguments.length ≠ func.parameters.length then
        .err ("Argument count mismatch in call to " ++ callee)
      else
        (bindArgs fuel (pushFrames st) arguments func.parameters).andThen fun _ st2 =>
          (runBody fuel st2 func.body).andThen fun rv st3 =>
            .ok (Value.ofInt rv) (popFrames st3)
  | fuel + 1, st, .ArrayAccess arrayName index =>
    match lookupA st.object_arrays arrayName with
    | some arr =>
      (evalExpr fuel st index).andThen fun iv st1 =>
        if iv.i < 0 ∨ (arr.length : Int) ≤ iv.i then
          .err ("Object array index out of bounds: " ++ toString iv.i)
        else
          .ok (Value.ofString (arrayName ++ "[" ++ toString iv.i ++ "]")) st1
    | none =>
      (evalExpr fuel st index).andThen fun iv st1 =>
        match lookupA st1.int_arrays arrayName with
        | some a =>
          match vecAt a iv.i with
          | some v => .ok (Value.ofInt v) st1
          | none => .err atMsg
        | none =>
          match lookupA st1.float_arrays arrayName with
          | some a =>
            match vecAt a iv.i with
            | some v => .ok (Value.ofFloat v) st1
            | none => .err atMsg
          | none =>
            match lookupA st1.char_arrays arrayName with
            | some a =>
              match vecAt a iv.i with
              | some v => .ok (Value.ofChar v) st1
              | none => .err atMsg
            | none =>
              match lookupA st1.bool_arrays arrayName with
              | some a =>
                match vecAt a iv.i with
                | some v => .ok (Value.ofInt (if v then 1 else 0)) st1
                | none => .err atMsg
              | none =>
                match lookupA st1.string_arrays arrayName with
                | some _ => .err "Cannot use string array element as int/float/char"
                | none => .err ("Undefined array: " ++ arrayName)
  | _ + 1, _, .ArrayLiteral _ => .err "ArrayLiteral should not be evaluated directly"
  | _ + 1, st, .ObjectMemberAccess object member =>
    match object with
    | .Variable objName =>
      match proxySplit objName with
      | some (arrName, idxStr) =>
        match cppStoi idxStr with
        | none => .err "stoi: invalid argument"
        | some idx =>
          match lookupA st.object_arrays arrName with
          | none => .err ("Undefined object array: " ++ arrName)
          | some arr =>
            match vecAt arr idx with
            | none => .err atMsg
            | some inst =>
              match lookupA inst.fields member with
              | some v => .ok v.toValue st
              | none => .err "Field not found in object array element"
      | none =>
        match lookupA st.objects objName with
        | none => .err ("Undefined object: " ++ objName)
        | some inst =>
          match lookupA inst.fields member with
          | some v => .ok v.toValue st
          | none => .err "Method calls on objects not yet implemented"
    | _ => .err "Unsupported object member access"
  | fuel + 1, st, .ObjectMethodCall object method arguments =>
    match object with
    | .Variable objName =>
      match proxySplit objName with
      | some (arrName, idxStr) =>
        match cppStoi idxStr with
        | none => .err "stoi: invalid argument"
        | some idx =>
          match lookupA st.object_arrays arrName with
          | none => .err ("Undefined object array: " ++ arrName)
          | some arr =>
            match vecAt arr idx with
            | none => .err atMsg
            | some inst =>
              match lookupA st.class_defs inst.className with
              | none => .err ("Class not found: " ++ inst.className)
              | some classDef =>
                match collectMethods fuel st.class_defs classDef [] with
                | .fuelOut => .fuelOut
                | .err m => .err m
                | .ok allMethods =>
                  match allMethods.find? (fun m => m.name = method) with
                  | none =>
                      .err ("Method not found: " ++ method ++ " in class " ++ inst.className)
                  | some mdef =>
                    if arguments.length ≠ mdef.parameters.length then
                      .err ("Argument count mismatch in call to method " ++ method)
                    else
                      (bindArgs fuel (mirrorFields (pushFrames st) inst.fields)
                          arguments mdef.parameters).andThen fun _ st2 =>
                        (runBody fuel st2 mdef.body).andThen fun rv st3 =>
                          match lookupA st3.object_arrays arrName with
                          | none => .ub
                          | some arr2 =>
                            match vecAt arr2 idx with
                            | none => .ub
                            | some inst2 =>
                              let newInst : ObjectInstance :=
                                { inst2 with
                                  fields := writeBackOwn st3 classDef.fields inst2.fields }
                              let st4 :=
                                { st3 with
                                  object_arrays :=
                                    insertA st3.object_arrays arrName
                                      (arr2.set idx.toNat newInst) }
                              .ok (Value.ofInt rv) (popFrames st4)
      | none =>
        match lookupA st.objects objName with
        | none => .err ("Undefined object: " ++ objName)
        | some inst =>
          match lookupA st.class_defs inst.className with
          | none => .err ("Class not found: " ++ inst.className)
          | some classDef =>
            match collectMethods fuel st.class_defs classDef [] with
            | .fuelOut => .fuelOut
            | .err m => .err m
            | .ok allMethods =>
              match allMethods.find? (fun m => m.name = method) with
              | none =>
                  .err ("Method not found: " ++ method ++ " in class " ++ inst.className)
              | some mdef =>
                if arguments.length ≠ mdef.parameters.length then
                  .err ("Argument count mismatch in call to method " ++ method)
                else
                  (bindArgs fuel (mirrorFields (pushFrames st) inst.fields)
                      arguments mdef.parameters).andThen fun _ st2 =>
                    (runBody fuel st2 mdef.body).andThen fun rv st3 =>
                      match lookupA st3.objects objName with
                      | none => .ub
                      | some inst2 =>
                        let newInst : ObjectInstance :=
                          { inst2 with fields := writeBackInst st3 inst2.fields }
                        let st4 :=
                          { st3 with objects := insertA st3.objects objName newInst }
                        .ok (Value.ofInt rv) (popFrames st4)
    | .ArrayAccess arrName idxExpr =>
      (evalExpr fuel st idxExpr).andThen fun idxVal st0 =>
        match lookupA st0.object_arrays arrName with
        | none => .err ("Undefined object array: " ++ arrName)
        | some arr =>
          match vecAt arr idxVal.i with
          | none => .err atMsg
          | some inst =>
            match lookupA st0.class_defs inst.className with
            | none => .err ("Class not found: " ++ inst.className)
            | some classDef =>
              match collectMethods fuel st0.class_defs classDef [] with
              | .fuelOut => .fuelOut
              | .err m => .err m
              | .ok allMethods =>
                match allMethods.find? (fun m => m.name = method) with
                | none =>
                    .err ("Method not found: " ++ method ++ " in class " ++ inst.className)
                | some mdef =>
                  if arguments.length ≠ mdef.parameters.length then
                    .err ("Argument count mismatch in call to method " ++ method)
                  else
                    (bindArgs fuel (mirrorFields (pushFrames st0) inst.fields)
                        arguments mdef.parameters).andThen fun _ st2 =>
                      (runBody fuel st2 mdef.body).andThen fun rv st3 =>
                        match lookupA st3.object_arrays arrName with
                        | none => .ub
                        | some arr2 =>
                          match vecAt arr2 idxVal.i with
                          | none => .ub
                          | some inst2 =>
                            let newInst : ObjectInstance :=
                              { inst2 with
                                fields := writeBackOwn st3 classDef.fields inst2.fields }
                            let st4 :=
                              { st3 with
                                object_arrays :=
                                  insertA st3.object_arrays arrName
                                    (arr2.set idxVal.i.toNat newInst) }
                            .ok (Value.ofInt rv) (popFrames st4)
    | _ => .err "Unsupported object method call"

/-- The argument-binding loop of calls: evaluate each argument in the
current (already pushed) scope and bind it to its parameter by tag.
The arity was checked by the caller. -/
def bindArgs : Nat → St → List Expr → List String → Res Unit
  | 0, _, _, _ => .fuelOut
  | _ + 1, st, [], _ => .ok () st
  | _ + 1, st, _, [] => .ok () st
  | fuel + 1, st, arg :: args, param :: params =>
    (evalExpr fuel st arg).andThen fun argVal st1 =>
      bindArgs fuel (bindOne st1 param argVal) args params

/-- The call-body loop: statements run in order; the first statement
that **is** (at the top level) a `Return` evaluates its expression,
whose integer payload becomes the result, and stops the loop; a body
that ends without a top-level `Return` yields integer 0. A null return
expression falls through every `dynamic_cast` and throws. -/
def runBody : Nat → St → List Stmt → Res Int
  | 0, _, _ => .fuelOut
  | _ + 1, st, [] => .ok 0 st
  | fuel + 1, st, stmt :: rest =>
    match stmt with
    | .Return (some e) =>
      (evalExpr fuel st e).andThen fun v st1 => .ok v.i st1
    | .Return none => .err "Unknown expression"
    | s =>
      (execute fuel st s).andThen fun _ st1 => runBody fuel st1 rest

/-- Statement-list execution (`for (const auto& s : list) execute(s);`). -/
def execSeq : Nat → St → List Stmt → Res Unit
  | 0, _, _ => .fuelOut
  | _ + 1, st, [] => .ok () st
  | fuel + 1, st, s :: rest =>
    (execute fuel st s).andThen fun _ st1 => execSeq fuel st1 rest

/-- The `for` statement's loop: optional condition (absence is true),
body, optional increment, repeat. -/
def forLoop : Nat → St → Option Expr → Option Stmt → List Stmt → Res Unit
  | 0, _, _, _, _ => .fuelOut
  | fuel + 1, st, cond, incr, body =>
    let condRes : Res Value :=
      match cond with
      | none => .ok (Value.ofInt 1) st
      | some c => evalExpr fuel st c
    condRes.andThen fun cv st1 =>
      if cv.i = 0 then .ok () st1
      else
        (execSeq fuel st1 body).andThen fun _ st2 =>
          let incrRes : Res Unit :=
            match incr with
            | none => .ok () st2
            | some s => execute fuel st2 s
          incrRes.andThen fun _ st3 => forLoop fuel st3 cond incr body

/-- `execute`: statement execution. The trailing fallback — reached by
`Return` at statement position, since the call loops intercept returns
before calling `execute` — throws `Unsupported statement`. -/
def execute : Nat → St → Stmt → Res Unit
  | 0, _, _ => .fuelOut
  | _ + 1, st, .FunctionDef fn =>
    .ok () { st with functions := insertA st.functions fn.name fn }
  | fuel + 1, st, .Assignment name value type =>
    -- Object-array declaration: declared type ends in "[]" and an
    -- initializer (the size expression) is present.
    if type ≠ "" ∧ type.length > 2 ∧ strSub type (type.length - 2) 2 = "[]" ∧ value.isSome then
      match value with
      | none => .ub
      | some sizeExpr =>
        let className := strTake type (type.length - 2)
        (evalExpr fuel st sizeExpr).andThen fun sv st1 =>
          match lookupA st1.class_defs className with
          | none => .ub
          | some classDef =>
            if sv.i < 0 then .err "cannot create std::vector larger than max_size()"
            else
              let inst : ObjectInstance :=
                { className := className, fields := defaultFields classDef.fields }
              let arr := List.replicate sv.i.toNat inst
              .ok () { st1 with object_arrays := insertA st1.object_arrays name arr }
    -- Default object instantiation: declared type names a registered
    -- class and the initializer is absent.
    else if (lookupA st.class_defs type).isSome ∧ value.isNone then
      match lookupA st.class_defs type with
      | none => .ub
      | some classDef =>
        let inst : ObjectInstance :=
          { className := type, fields := defaultFields classDef.fields }
        .ok () { st with objects := insertA st.objects name inst }
    -- Field assignment: the target name contains a dot.
    else if strContains name '.' then
      match strFind? name '.' with
      | none => .ub
      | some dot =>
        let objName := strTake name dot
        let fieldName := strDropN name (dot + 1)
        match proxySplit objName with
        | some (arrName, idxStr) =>
          match cppStoi idxStr with
          | none => .err "stoi: invalid argument"
          | some idx =>
            match lookupA st.object_arrays arrName with
            | none => .err ("Undefined object array: " ++ arrName)
            | some arr =>
              if idx < 0 ∨ (arr.length : Int) ≤ idx then
                .err ("Object array index out of bounds: " ++ toString idx)
              else
                match value with
                | none => .err "Unknown expression"
                | some vexpr =>
                  (evalExpr fuel st vexpr).andThen fun val st1 =>
                    match lookupA st1.object_arrays arrName with
                    | none => .ub
                    | some arrNow =>
                      match vecAt arrNow idx with
                      | none => .ub
                      | some inst =>
                        let fv : FieldVal :=
                          if val.type = .INT then .vInt val.i
                          else if val.type = .FLOAT then .vFloat val.f
                          else if val.type = .CHAR then .vChar val.c
                          else .vString val.s
                        let inst' :=
                          { inst with fields := insertA inst.fields fieldName fv }
                        .ok ()
                          { st1 with
                            object_arrays :=
                              insertA st1.object_arrays arrName
                                (arrNow.set idx.toNat inst') }
        | none =>
          match lookupA st.objects objName with
          | none => .err ("Undefined object: " ++ objName)
          | some _ =>
            match value with
            | none => .err "Unknown expression"
            | some vexpr =>
              (evalExpr fuel st vexpr).andThen fun val st1 =>
                match lookupA st1.objects objName with
                | none => .ub
                | some inst =>
                  let fv : FieldVal :=
                    if val.type = .INT then .vInt val.i
                    else if val.type = .FLOAT then .vFloat val.f
                    else if val.type = .CHAR then .vChar val.c
                    else .vString val.s
                  let inst' := { inst with fields := insertA inst.fields fieldName fv }
                  .ok () { st1 with objects := insertA st1.objects objName inst' }
    else
      -- Typed declarations whose initializer is the matching literal
      -- kind write through the scoped setter of that domain; everything
      -- else falls to the tag-dispatched fallback.
      match value with
      | some v =>
        if type = "int" ∧ v matches .Number _ then
          (evalExpr fuel st v).andThen fun r st1 => .ok () (setIntVar st1 name r.i)
        else if type = "float" ∧ v matches .FloatLiteral _ then
          (evalExpr fuel st v).andThen fun r st1 => .ok () (setFloatVar st1 name r.f)
        else if type = "char" ∧ v matches .CharLiteral _ then
          (evalExpr fuel st v).andThen fun r st1 => .ok () (setCharVar st1 name r.c)
        else if type = "bool" ∧ v matches .BoolLiteral _ then
          (evalExpr fuel st v).andThen fun r st1 => .ok () (setIntVar st1 name r.i)
        else if type = "string" ∧ v matches .StringLiteral _ then
          (evalExpr fuel st v).andThen fun r st1 => .ok () (setStringVar st1 name r.s)
        else
          (evalExpr fuel st v).andThen fun val st1 =>
            if val.type = .STRING then .ok () (setStringVar st1 name val.s)
            else if val.type = .FLOAT then .ok () (setFloatVar st1 name val.f)
            else if val.type = .CHAR then .ok () (setCharVar st1 name val.c)
            else .ok () (setIntVar st1 name val.i)
      | none => .ok () st
  | fuel + 1, st, .Print e =>
    (evalExpr fuel st e).andThen fun v st1 =>
      .ok () { st1 with output := st1.output ++ [outCellOf v] }
  | fuel + 1, st, .IfStatement condition thenBranch elseBranch =>
    (evalExpr fuel st condition).andThen fun cv st1 =>
      if cv.i ≠ 0 then execSeq fuel st1 thenBranch else execSeq fuel st1 elseBranch
  | fuel + 1, st, .ExprStatement e =>
    -- Both C++ branches (method call or not) evaluate the expression
    -- for its effects and discard the value.
    (evalExpr fuel st e).andThen fun _ st1 => .ok () st1
  | fuel + 1, st, .WhileStatement condition body =>
    (evalExpr fuel st condition).andThen fun cv st1 =>
      if cv.i = 0 then .ok () st1
      else
        (execSeq fuel st1 body).andThen fun _ st2 =>
          execute fuel st2 (.WhileStatement condition body)
  | fuel + 1, st, .ForStatement initializer condition increment body =>
    let initRes : Res Unit :=
      match initializer with
      | none => .ok () st
      | some s => execute fuel st s
    initRes.andThen fun _ st1 => forLoop fuel st1 condition increment body
  | fuel + 1, st, .ArrayAssignment name index value =>
    (evalExpr fuel st index).andThen fun iv st1 =>
      (evalExpr fuel st1 value).andThen fun v st2 =>
        match lookupA st2.int_arrays name with
        | some a =>
          match vecSet a iv.i v.i with
          | some a' => .ok () { st2 with int_arrays := insertA st2.int_arrays name a' }
          | none => .ub
        | none =>
          match lookupA st2.float_arrays name with
          | some a =>
            match vecSet a iv.i (if v.type = .FLOAT then v.f else (v.i : Rat)) with
            | some a' =>
                .ok () { st2 with float_arrays := insertA st2.float_arrays name a' }
            | none => .ub
          | none =>
            match lookupA st2.char_arrays name with
            | some a =>
              match vecSet a iv.i (if v.type = .CHAR then v.c else v.i) with
              | some a' =>
                  .ok () { st2 with char_arrays := insertA st2.char_arrays name a' }
              | none => .ub
            | none =>
              match lookupA st2.bool_arrays name with
              | some a =>
                match vecSet a iv.i (v.i ≠ 0) with
                | some a' =>
                    .ok () { st2 with bool_arrays := insertA st2.bool_arrays name a' }
                | none => .ub
              | none => .err ("Undefined array: " ++ name)
  | _ + 1, st, .ClassDef c =>
    .ok () { st with class_defs := insertA st.class_defs c.name c }
  | fuel + 1, st, .ObjectInstantiation className varName arguments =>
    match lookupA st.class_defs className with
    | none => .ub
    | some classDef =>
      match collectFields fuel st.class_defs classDef [] with
      | .fuelOut => .fuelOut
      | .err m => .err m
      | .ok allFields =>
        let inst : ObjectInstance :=
          { className := className, fields := defaultFields allFields }
        let st1 := { st with objects := insertA st.objects varName inst }
        if arguments.isEmpty then .ok () st1
        else
          match collectMethods fuel st1.class_defs classDef [] with
          | .fuelOut => .fuelOut
          | .err m => .err m
          | .ok allMethods =>
            match allMethods.find? (fun m => m.name = "init") with
            | none => .err ("Constructor 'init' not found in class " ++ className)
            | some ctor =>
              if arguments.length ≠ ctor.parameters.length then
                .err ("Constructor argument count mismatch for class " ++ className)
              else
                (bindArgs fuel (mirrorFields (pushFrames st1) inst.fields)
                    arguments ctor.parameters).andThen fun _ st2 =>
                  (execSeq fuel st2 ctor.body).andThen fun _ st3 =>
                    let cur := (lookupA st3.objects varName).getD ⟨"", []⟩
                    let cur' :=
                      { cur with fields := writeBackOwn st3 classDef.fields cur.fields }
                    let st4 := { st3 with objects := insertA st3.objects varName cur' }
                    .ok () (popFrames st4)
  | _ + 1, _, .Return _ => .err "Unsupported statement"

end

/-- Whether a top-level statement is a class definition
(`dynamic_cast<const ClassDef*>`). -/
def isClassDefStmt : Stmt → Bool
  | .ClassDef _ => true
  | _ => false

/-- Whether a statement is, at this level, a default object
instantiation under the given class registry: an assignment whose
declared type names a registered class and whose initializer is absent. -/
def isDefaultObjInst (cds : List (String × ClassDefn)) : Stmt → Bool
  | .Assignment _ none type => (lookupA cds type).isSome
  | _ => false

/-- Pass 1 of `run`: execute exactly the class-definition statements. -/
def pass1 (fuel : Nat) : St → List Stmt → Res Unit
  | st, [] => .ok () st
  | st, s :: rest =>
    if isClassDefStmt s then
      (execute fuel st s).andThen fun _ st1 => pass1 fuel st1 rest
    else pass1 fuel st rest

/-- Pass 2 of `run`: execute exactly the default object instantiations,
judged against the class registry as it stands when each statement is
reached. -/
def pass2 (fuel : Nat) : St → List Stmt → Res Unit
  | st, [] => .ok () st
  | st, s :: rest =>
    if isDefaultObjInst st.class_defs s then
      (execute fuel st s).andThen fun _ st1 => pass2 fuel st1 rest
    else pass2 fuel st rest

/-- Pass 3 of `run`: execute the remaining statements in source order,
skipping class definitions and default object instantiations. -/
def pass3 (fuel : Nat) : St → List Stmt → Res Unit
  | st, [] => .ok () st
  | st, s :: rest =>
    if isClassDefStmt s then pass3 fuel st rest
    else if isDefaultObjInst st.class_defs s then pass3 fuel st rest
    else (execute fuel st s).andThen fun _ st1 => pass3 fuel st1 rest

/-- `run`: the three-pass top-level driver. -/
def run (fuel : Nat) (st : St) (statements : List Stmt) : Res Unit :=
  (pass1 fuel st statements).andThen fun _ st1 =>
    (pass2 fuel st1 statements).andThen fun _ st2 =>
      pass3 fuel st2 statements

/-- Whether a statement is a `Return` node (the `dynamic_cast` guard of
the call-body loops). -/
def isReturnStmt : Stmt → Bool
  | .Return _ => true
  | _ => false

/-- Executing a whole statement list at constant fuel, the loop shape
shared by the three passes of `run`. -/
def execAll (fuel : Nat) : St → List Stmt → Res Unit
  | st, [] => .ok () st
  | st, s :: rest => (execute fuel st s).andThen fun _ st1 => execAll fuel st1 rest

/-- An evaluation outcome whose successful value, if any, carries the
integer tag. -/
def ResIntTagged (r : Res Value) : Prop :=
  ∀ v st', r = .ok v st' → v.type = .INT

/-! Concrete fixtures used to witness the theorems below. -/

/-- `ComeAndDo f() { return 5; }`. -/
def retFiveFn : FuncDef := .mk "f" [] [.Return (some (.Number 5))]

/-- A state in which `f` is registered. -/
def retFiveSt : St := { initialState with functions := [("f", retFiveFn)] }

/-- `ComeAndDo g() { if (true) { return 5; } }` — the return sits inside
the `if` branch, not at the top level of the body. -/
def nestedReturnFn : FuncDef :=
  .mk "g" [] [.IfStatement (.BoolLiteral true) [.Return (some (.Number 5))] []]

/-- A state in which `g` is registered. -/
def nestedReturnSt : St := { initialState with functions := [("g", nestedReturnFn)] }

/-- A state holding the integer array `a = {1, 2}`. -/
def intArraySt : St := { initialState with int_arrays := [("a", [1, 2])] }

/-- `class A { int v; }`. -/
def baseA : ClassDefn := .mk "A" "" [("int", "v")] []

/-- `class B : A { ComeAndDo init(x) { v = x; } }` — no fields of its
own; `init` writes the inherited field. -/
def derivedB : ClassDefn :=
  .mk "B" "A" [] [.mk "init" ["x"] [.Assignment "v" (some (.Variable "x")) ""]]

/-- A state in which `A` and `B` are registered. -/
def inheritSt : St := { initialState with class_defs := [("A", baseA), ("B", derivedB)] }

/-- `class C { int v; ComeAndDo init(x) { v = x; } }` — the same
constructor, but the field is the class's own. -/
def selfC : ClassDefn :=
  .mk "C" "" [("int", "v")] [.mk "init" ["x"] [.Assignment "v" (some (.Variable "x")) ""]]

/-- A state in which `C` is registered. -/
def selfSt : St := { initialState with class_defs := [("C", selfC)] }

/-- `class D : A { float v; int w; }` — a derived class overriding an
inherited field's type and adding one of its own. -/
def derivedD : ClassDefn := .mk "D" "A" [("float", "v"), ("int", "w")] []

/-- `class M { ComeAndDo m0() { } }` with an instance `o`. -/
def classM : ClassDefn := .mk "M" "" [] [.mk "m0" [] []]

/-- A state with class `M` and an object `o : M`. -/
def methodSt : St :=
  { initialState with
    class_defs := [("M", classM)]
    objects := [("o", ⟨"M", []⟩)] }

/-- A two-frame state: the inner frame binds `x` in the string domain,
the outer (global) frame binds `x` in the integer domain. -/
def shadowSt : St :=
  { initialState with
    variables_stack := [[], [("x", 3)]]
    string_variables_stack := [[("x", "s")], []] }

/-! Inversion and reduction lemmas for the plumbing. -/

@[simp] theorem Res.andThen_ok {α β : Type} (a : α) (st : St) (k : α → St → Res β) :
    (Res.ok a st).andThen k = k a st := rfl

@[simp] theorem Res.andThen_err {α β : Type} (m : String) (k : α → St → Res β) :
    (Res.err m : Res α).andThen k = .err m := rfl

@[simp] theorem Res.andThen_ub {α β : Type} (k : α → St → Res β) :
    (Res.ub : Res α).andThen k = .ub := rfl

@[simp] theorem Res.andThen_fuelOut {α β : Type} (k : α → St → Res β) :
    (Res.fuelOut : Res α).andThen k = .fuelOut := rfl

theorem Res.andThen_eq_ok {α β : Type} {r : Res α} {k : α → St → Res β} {b : β} {st' : St}
    (h : r.andThen k = .ok b st') : ∃ a st0, r = .ok a st0 ∧ k a st0 = .ok b st' := by
  cases r with
  | ok a st0 => exact ⟨a, st0, rfl, h⟩
  | err m => simp [Res.andThen] at h
  | ub => simp [Res.andThen] at h
  | fuelOut => simp [Res.andThen] at h

/-! Claim theorems. -/

/-- C2: for `a && b`, when the left operand's integer projection is 0
the right operand is never evaluated — the result is integer 0 in the
state left by `a` alone; dually `a || b` yields integer 1 in `a`'s
state when `a`'s integer projection is nonzero; and whenever either
operator succeeds, the result is an integer-tagged 0 or 1. -/
theorem C2_short_circuit (fuel : Nat) (st st' : St) (a b : Expr) (va : Value) :
    (evalExpr fuel st a = .ok va st' → va.i = 0 →
      evalExpr (fuel + 1) st (.BinaryExpr .AND a b) = .ok (Value.ofInt 0) st') ∧
    (evalExpr fuel st a = .ok va st' → va.i ≠ 0 →
      evalExpr (fuel + 1) st (.BinaryExpr .OR a b) = .ok (Value.ofInt 1) st') ∧
    (∀ v st2, evalExpr (fuel + 1) st (.BinaryExpr .AND a b) = .ok v st2 →
      v.type = .INT ∧ (v.i = 0 ∨ v.i = 1)) ∧
    (∀ v st2, evalExpr (fuel + 1) st (.BinaryExpr .OR a b) = .ok v st2 →
      v.type = .INT ∧ (v.i = 0 ∨ v.i = 1)) := by
  refine ⟨?_, ?_, ?_, ?_⟩
  · intro h h0
    simp [evalExpr, h, h0]
  · intro h h0
    simp [evalExpr, h, h0]
  · intro v st2 h
    simp only [evalExpr, reduceIte] at h
    obtain ⟨l, st1, hl, h⟩ := Res.andThen_eq_ok h
    by_cases hz : l.i = 0
    · simp [hz] at h
      obtain ⟨hv, _⟩ := h
      subst hv
      simp [Value.ofInt]
    · simp [hz] at h
      obtain ⟨r, st3, hr, h⟩ := Res.andThen_eq_ok h
      simp at h
      obtain ⟨hv, _⟩ := h
      subst hv
      by_cases hrz : r.i = 0 <;> simp [hz, hrz, Value.ofInt]
  · intro v st2 h
    simp only [evalExpr, reduceIte] at h
    obtain ⟨l, st1, hl, h⟩ := Res.andThen_eq_ok h
    by_cases hz : l.i = 0
    · simp [hz] at h
      obtain ⟨r, st3, hr, h⟩ := Res.andThen_eq_ok h
      simp at h
      obtain ⟨hv, _⟩ := h
      subst hv
      by_cases hrz : r.i = 0 <;> simp [hz, hrz, Value.ofInt]
    · simp [hz] at h
      obtain ⟨hv, _⟩ := h
      subst hv
      simp [Value.ofInt]

/-- C2 witness: `0 && print-effect` short-circuits to integer 0. -/
theorem C2_witness :
    evalExpr 4 initialState (.BinaryExpr .AND (.Number 0) (.Variable "nope")) =
      .ok (Value.ofInt 0) initialState :=
  (C2_short_circuit 3 initialState initialState (.Number 0) (.Variable "nope")
    (Value.ofInt 0)).1 rfl rfl

/-- C8: a variable read probes the integer, floating, character and
string domains in that order, each searched across its whole stack
(innermost frame first, per `getStack`); the first domain that binds
the name anywhere supplies the value, and if none does the read fails
with the undefined-variable error. -/
theorem C8_lookup_order (fuel : Nat) (st : St) (name : String) :
    (∀ v, getIntVar? st name = some v →
      evalExpr (fuel + 1) st (.Variable name) = .ok (Value.ofInt v) st) ∧
    (∀ v, getIntVar? st name = none → getFloatVar? st name = some v →
      evalExpr (fuel + 1) st (.Variable name) = .ok (Value.ofFloat v) st) ∧
    (∀ v, getIntVar? st name = none → getFloatVar? st name = none →
      getCharVar? st name = some v →
      evalExpr (fuel + 1) st (.Variable name) = .ok (Value.ofChar v) st) ∧
    (∀ v, getIntVar? st name = none → getFloatVar? st name = none →
      getCharVar? st name = none → getStringVar? st name = some v →
      evalExpr (fuel + 1) st (.Variable name) = .ok (Value.ofString v) st) ∧
    (getIntVar? st name = none → getFloatVar? st name = none →
      getCharVar? st name = none → getStringVar? st name = none →
      evalExpr (fuel + 1) st (.Variable name) = .err ("Undefined variable: " ++ name)) ∧
    (∀ (fr : List (String × Int)) rest v, st.variables_stack = fr :: rest →
      lookupA fr name = some v → getIntVar? st name = some v) := by
  refine ⟨?_, ?_, ?_, ?_, ?_, ?_⟩
  · intro v h; simp [evalExpr, h]
  · intro v h1 h2; simp [evalExpr, h1, h2]
  · intro v h1 h2 h3; simp [evalExpr, h1, h2, h3]
  · intro v h1 h2 h3 h4; simp [evalExpr, h1, h2, h3, h4]
  · intro h1 h2 h3 h4; simp [evalExpr, h1, h2, h3, h4]
  · intro fr rest v hstk hfr
    simp [getIntVar?, getStack, hstk, List.findSome?, hfr]

/-- C8 witness: with `x` bound to a string in the inner frame and to an
integer in the global frame, the integer domain still wins. -/
theorem C8_witness :
    evalExpr 4 shadowSt (.Variable "x") = .ok (Value.ofInt 3) shadowSt :=
  (C8_lookup_order 3 shadowSt "x").1 3 rfl

theorem updateInnermost_append {α : Type} (name : String) (x : α)
    (pre post : List (List (String × α))) (fr : List (String × α))
    (hpre : ∀ fr' ∈ pre, lookupA fr' name = none)
    (hfr : (lookupA fr name).isSome) :
    updateInnermost (pre ++ fr :: post) name x = some (pre ++ insertA fr name x :: post) := by
  induction pre with
  | nil => simp [updateInnermost, hfr]
  | cons p ps ih =>
      have hp : lookupA p name = none := hpre p (by simp)
      have hrec := ih (fun fr' h => hpre fr' (by simp [h]))
      simp [updateInnermost, hp, hrec]

theorem updateInnermost_none {α : Type} (name : String) (x : α)
    (stk : List (List (String × α)))
    (h : ∀ fr ∈ stk, lookupA fr name = none) :
    updateInnermost stk name x = none := by
  induction stk with
  | nil => simp [updateInnermost]
  | cons fr rest ih =>
      have hfr : lookupA fr name = none := h fr (by simp)
      have hrec := ih (fun fr' hm => h fr' (by simp [hm]))
      simp [updateInnermost, hfr, hrec]

/-- C3: a floating, character or string write mutates the innermost
frame that already binds the name and otherwise creates the binding in
the current (top) frame, while an integer write always stores into the
current frame, leaving every enclosing frame untouched. -/
theorem C3_write_semantics (st : St) (name : String) (v : Rat) (c : Int)
    (s : String) (iv : Int) :
    (∀ (α : Type) (pre post : List (List (String × α))) (fr : List (String × α)) (x : α),
      (∀ fr' ∈ pre, lookupA fr' name = none) →
      (lookupA fr name).isSome →
      setThrough (pre ++ fr :: post) name x = pre ++ insertA fr name x :: post) ∧
    (∀ (α : Type) (fr0 : List (String × α)) (rest : List (List (String × α))) (x : α),
      (∀ fr' ∈ fr0 :: rest, lookupA fr' name = none) →
      setThrough (fr0 :: rest) name x = insertA fr0 name x :: rest) ∧
    ((setFloatVar st name v).float_variables_stack =
      setThrough st.float_variables_stack name v) ∧
    ((setCharVar st name c).char_variables_stack =
      setThrough st.char_variables_stack name c) ∧
    ((setStringVar st name s).string_variables_stack =
      setThrough st.string_variables_stack name s) ∧
    (∀ (fr0 : List (String × Int)) (rest : List (List (String × Int))),
      st.variables_stack = fr0 :: rest →
      (setIntVar st name iv).variables_stack = insertA fr0 name iv :: rest) := by
  refine ⟨?_, ?_, rfl, rfl, rfl, ?_⟩
  · intro α pre post fr x hpre hfr
    simp [setThrough, updateInnermost_append name x pre post fr hpre hfr]
  · intro α fr0 rest x habs
    simp [setThrough, updateInnermost_none name x (fr0 :: rest) habs, setTopFrame]
  · intro fr0 rest hstk
    simp [setIntVar, hstk, setTopFrame]

/-- C3 witness: writing float `y` through two frames mutates the outer
binding, and an integer write to `x` shadows rather than overwrites the
enclosing binding of `shadowSt`. -/
theorem C3_witness :
    setThrough ([[], [("y", (1 : Rat))]]) "y" (2 : Rat) = [[], [("y", (2 : Rat))]] ∧
    setThrough ([([] : List (String × Rat))]) "y" (2 : Rat) = [[("y", (2 : Rat))]] ∧
    (setIntVar shadowSt "x" 9).variables_stack = [[("x", 9)], [("x", 3)]] := by
  refine ⟨?_, ?_, ?_⟩
  · exact (C3_write_semantics shadowSt "y" 1 0 "" 0).1 Rat [[]] []
      [("y", (1 : Rat))] 2 (by intro fr' h; simp at h; simp [h, lookupA]) rfl
  · exact (C3_write_semantics shadowSt "y" 1 0 "" 0).2.1 Rat [] [] 2
      (by intro fr' h; simp at h; simp [h, lookupA])
  · exact (C3_write_semantics shadowSt "x" 1 0 "" 9).2.2.2.2.2 [] [[("x", 3)]] rfl

/-- C6: the effective field list of a class is its base's effective
list (recursively, base-first) with the class's own fields folded in,
an own field overriding an inherited one of the same name in place and
a fresh name appending; the method merge follows the identical
algorithm; and a named base class absent from the registry fails with
an error naming it. -/
theorem C6_inheritance_merge (n : Nat) (cds : List (String × ClassDefn))
    (cd base : ClassDefn) (out bf : List (String × String))
    (mout mf : List FuncDef) :
    (cd.baseClass = "" → collectFields (n + 1) cds cd out = .ok (addFields out cd.fields)) ∧
    (cd.baseClass ≠ "" → lookupA cds cd.baseClass = some base →
      collectFields n cds base out = .ok bf →
      collectFields (n + 1) cds cd out = .ok (addFields bf cd.fields)) ∧
    (cd.baseClass ≠ "" → lookupA cds cd.baseClass = none →
      collectFields (n + 1) cds cd out = .err ("Base class not found: " ++ cd.baseClass)) ∧
    (cd.baseClass = "" →
      collectMethods (n + 1) cds cd mout = .ok (addMethods mout cd.methods)) ∧
    (cd.baseClass ≠ "" → lookupA cds cd.baseClass = some base →
      collectMethods n cds base mout = .ok mf →
      collectMethods (n + 1) cds cd mout = .ok (addMethods mf cd.methods)) ∧
    (cd.baseClass ≠ "" → lookupA cds cd.baseClass = none →
      collectMethods (n + 1) cds cd mout = .err ("Base class not found: " ++ cd.baseClass)) ∧
    (∀ (p q : List (String × String)) (t0 t fname : String),
      (∀ e ∈ p, e.2 ≠ fname) →
      overrideField (p ++ (t0, fname) :: q) (t, fname) = p ++ (t, fname) :: q) ∧
    (∀ (out1 : List (String × String)) (t fname : String),
      (∀ e ∈ out1, e.2 ≠ fname) →
      overrideField out1 (t, fname) = out1 ++ [(t, fname)]) := by
  refine ⟨?_, ?_, ?_, ?_, ?_, ?_, ?_, ?_⟩
  · intro h; simp [collectFields, h]
  · intro h hb hrec; simp [collectFields, h, hb, hrec]
  · intro h hb; simp [collectFields, h, hb]
  · intro h; simp [collectMethods, h]
  · intro h hb hrec; simp [collectMethods, h, hb, hrec]
  · intro h hb; simp [collectMethods, h, hb]
  · intro p q t0 t fname hp
    induction p with
    | nil => simp [overrideField]
    | cons e es ih =>
        have he : e.2 ≠ fname := hp e (by simp)
        have hrec := ih (fun e' h => hp e' (by simp [h]))
        simp [overrideField, he, hrec]
  · intro out1 t fname hout
    induction out1 with
    | nil => simp [overrideField]
    | cons e es ih =>
        have he : e.2 ≠ fname := hout e (by simp)
        have hrec := ih (fun e' h => hout e' (by simp [h]))
        simp [overrideField, he, hrec]

/-- C6 witness: `class D : A` merges `A`'s `int v` base-first, `D`'s
`float v` overrides it in place, `int w` appends; and with an empty
registry the same class fails naming `A`. -/
theorem C6_witness :
    collectFields 2 [("A", baseA), ("D", derivedD)] derivedD [] =
      .ok [("float", "v"), ("int", "w")] ∧
    collectFields 2 [] derivedD [] = .err "Base class not found: A" := by
  constructor
  · exact (C6_inheritance_merge 1 [("A", baseA), ("D", derivedD)] derivedD baseA []
      [("int", "v")] [] []).2.1 (by simp [derivedD, ClassDefn.baseClass]) rfl rfl
  · exact (C6_inheritance_merge 1 [] derivedD baseA [] [] [] []).2.2.1
      (by simp [derivedD, ClassDefn.baseClass]) rfl

/-- C7 counterexample: `"x=" + 1.5` concatenates the float operand's
**integer** payload, producing `"x=0"` — not the textual form of 1.5
that the claim asserts. -/
theorem C7_counterexample :
    evalExpr 3 initialState
      (.BinaryExpr .PLUS (.StringLiteral "x=") (.FloatLiteral (3 / 2))) =
    .ok (Value.ofString "x=0") initialState := rfl

/-- C7 (amended): for `+` with at least one string-tagged operand, the
result is the concatenation of, for each side, the string itself when
string-tagged and otherwise the decimal form of the value's integer
payload — so integer operands contribute their decimal form, while
floating and character operands contribute `"0"` because their
constructors zero the integer payload. -/
theorem C7_amended_concat (fuel : Nat) (st st1 st2 : St) (a b : Expr) (va vb : Value)
    (ha : evalExpr fuel st a = .ok va st1)
    (hb : evalExpr fuel st1 b = .ok vb st2)
    (hs : va.type = .STRING ∨ vb.type = .STRING) :
    evalExpr (fuel + 1) st (.BinaryExpr .PLUS a b) =
      .ok (Value.ofString
        ((if va.type = .STRING then va.s else toString va.i) ++
         (if vb.type = .STRING then vb.s else toString vb.i))) st2 ∧
    (∀ q : Rat, (Value.ofFloat q).i = 0) ∧
    (∀ cc : Int, (Value.ofChar cc).i = 0) := by
  refine ⟨?_, fun _ => rfl, fun _ => rfl⟩
  simp [evalExpr, ha, hb, binArith, hs]

/-- C7 witness: `"x=" + 5` concatenates to `"x=5"`. -/
theorem C7_witness :
    evalExpr 3 initialState (.BinaryExpr .PLUS (.StringLiteral "x=") (.Number 5)) =
      .ok (Value.ofString "x=5") initialState :=
  (C7_amended_concat 2 initialState initialState initialState
    (.StringLiteral "x=") (.Number 5) (Value.ofString "x=") (Value.ofInt 5)
    rfl rfl (Or.inl rfl)).1

theorem andThen_congr {α β : Type} (r : Res α) (k k' : α → St → Res β)
    (h : ∀ a st, k a st = k' a st) : r.andThen k = r.andThen k' := by
  cases r <;> simp [Res.andThen, h]

theorem runBody_stops_at_first_return (pre : List Stmt)
    (hpre : ∀ s ∈ pre, isReturnStmt s = false) (e : Expr) (rest : List Stmt) :
    ∀ (fuel : Nat) (st : St),
      runBody fuel st (pre ++ .Return (some e) :: rest) =
        runBody fuel st (pre ++ [.Return (some e)]) := by
  induction pre with
  | nil =>
      intro fuel st
      cases fuel with
      | zero => rfl
      | succ n => rfl
  | cons s pre' ih =>
      intro fuel st
      have hs : isReturnStmt s = false := hpre s (by simp)
      have hpre' : ∀ s' ∈ pre', isReturnStmt s' = false := fun s' h => hpre s' (by simp [h])
      cases fuel with
      | zero => rfl
      | succ n =>
          cases s
          case Return v => simp [isReturnStmt] at hs
          all_goals
            simp only [List.cons_append, runBody]
          all_goals
            exact andThen_congr _ _ _ (fun _ st1 => ih hpre' n st1)

theorem runBody_no_return (body : List Stmt)
    (hbody : ∀ s ∈ body, isReturnStmt s = false) :
    ∀ (fuel : Nat) (st : St) (rv : Int) (st' : St),
      runBody fuel st body = .ok rv st' → rv = 0 := by
  induction body with
  | nil =>
      intro fuel st rv st' h
      cases fuel with
      | zero => simp [runBody] at h
      | succ n =>
          simp only [runBody] at h
          cases h
          rfl
  | cons s rest ih =>
      intro fuel st rv st' h
      have hs : isReturnStmt s = false := hbody s (by simp)
      have hrest : ∀ s' ∈ rest, isReturnStmt s' = false :=
        fun s' hm => hbody s' (by simp [hm])
      cases fuel with
      | zero => simp [runBody] at h
      | succ n =>
          cases s
          case Return v => simp [isReturnStmt] at hs
          all_goals
            simp only [runBody] at h
          all_goals
            obtain ⟨a, st1, _, h⟩ := Res.andThen_eq_ok h
          all_goals
            exact ih hrest n st1 rv st' h

/-- C1 counterexample: calling `g`, whose only `return` sits inside an
`if` block, throws `Unsupported statement` instead of yielding 5 — a
return nested inside a block does not propagate. -/
theorem C1_counterexample :
    evalExpr 9 nestedReturnSt (.CallExpr "g" []) = .err "Unsupported statement" := rfl

/-- C1 (amended): only a `return` at the **top level** of a called body
propagates: the body loop never runs past the first top-level return,
whose evaluated expression's integer payload becomes the call's result;
a body that completes with no top-level return yields 0; and a `return`
that reaches `execute` — i.e. one nested inside an if/while/for block —
throws `Unsupported statement` instead of returning. -/
theorem C1_amended_top_level_return
    (fuel : Nat) (st st1 st2 st3 : St) (f : String) (fn : FuncDef)
    (args : List Expr) (pre rest body : List Stmt) (e : Expr) (v : Value) (rv : Int) :
    ((∀ s ∈ pre, isReturnStmt s = false) →
      runBody fuel st (pre ++ .Return (some e) :: rest) =
        runBody fuel st (pre ++ [.Return (some e)])) ∧
    (evalExpr fuel st e = .ok v st1 →
      runBody (fuel + 1) st (.Return (some e) :: rest) = .ok v.i st1) ∧
    ((∀ s ∈ body, isReturnStmt s = false) →
      runBody fuel st body = .ok rv st2 → rv = 0) ∧
    (lookupA st.functions f = some fn →
      args.length = fn.parameters.length →
      bindArgs fuel (pushFrames st) args fn.parameters = .ok () st2 →
      runBody fuel st2 fn.body = .ok rv st3 →
      evalExpr (fuel + 1) st (.CallExpr f args) = .ok (Value.ofInt rv) (popFrames st3)) ∧
    (execute (fuel + 1) st (.Return (some e)) = .err "Unsupported statement") := by
  refine ⟨?_, ?_, ?_, ?_, rfl⟩
  · intro hpre
    exact runBody_stops_at_first_return pre hpre e rest fuel st
  · intro h
    simp [runBody, h]
  · intro hbody h
    exact runBody_no_return body hbody fuel st rv st2 h
  · intro h1 h2 h3 h4
    simp [evalExpr, h1, h2, h3, h4]

/-- C1 witness: a top-level `return 5` halts the body (the trailing
print never runs), the call returns 5, and a bare `return` statement
handed to `execute` throws. -/
theorem C1_witness :
    (runBody 9 retFiveSt [.Return (some (.Number 5)), .Print (.Number 1)] =
      .ok 5 retFiveSt) ∧
    (runBody 9 retFiveSt
        ([.Print (.Number 1)] ++ .Return (some (.Number 5)) :: [.Print (.Number 2)]) =
      runBody 9 retFiveSt ([.Print (.Number 1)] ++ [.Return (some (.Number 5))])) ∧
    (evalExpr 9 retFiveSt (.CallExpr "f" []) =
      .ok (Value.ofInt 5) (popFrames (pushFrames retFiveSt))) ∧
    (execute 9 initialState (.Return (some (.Number 5))) = .err "Unsupported statement") := by
  refine ⟨?_, ?_, ?_, ?_⟩
  · exact (C1_amended_top_level_return 8 retFiveSt retFiveSt retFiveSt retFiveSt "f"
      retFiveFn [] [] [.Print (.Number 1)] [] (.Number 5) (Value.ofInt 5) 5).2.1 rfl
  · exact (C1_amended_top_level_return 9 retFiveSt retFiveSt retFiveSt retFiveSt "f"
      retFiveFn [] [.Print (.Number 1)] [.Print (.Number 2)] [] (.Number 5)
      (Value.ofInt 5) 5).1
      (by intro s hs; simp at hs; subst hs; rfl)
  · exact (C1_amended_top_level_return 8 retFiveSt retFiveSt (pushFrames retFiveSt)
      (pushFrames retFiveSt) "f" retFiveFn [] [] [] [] (.Number 5)
      (Value.ofInt 5) 5).2.2.2.1 rfl rfl rfl rfl
  · exact (C1_amended_top_level_return 8 initialState initialState initialState
      initialState "f" retFiveFn [] [] [] [] (.Number 5) (Value.ofInt 5) 5).2.2.2.2

/-- C4: on the array `a = {1, 2}`, the element WRITE path is an
unchecked `vector::operator[]` — index 5 and index −1 are undefined
behaviour, not a thrown error — whereas the READ path (`vector::at`)
does throw for both, and in-range reads and writes behave normally.
The claim's assertion that element writes are bounds-checked fails. -/
theorem C4_unchecked_write_bug :
    execute 5 intArraySt (.ArrayAssignment "a" (.Number 5) (.Number 7)) = .ub ∧
    execute 5 intArraySt (.ArrayAssignment "a" (.Number (-1)) (.Number 7)) = .ub ∧
    evalExpr 5 intArraySt (.ArrayAccess "a" (.Number 5)) = .err atMsg ∧
    evalExpr 5 intArraySt (.ArrayAccess "a" (.Number (-1))) = .err atMsg ∧
    evalExpr 5 intArraySt (.ArrayAccess "a" (.Number 1)) = .ok (Value.ofInt 2) intArraySt ∧
    (match execute 5 intArraySt (.ArrayAssignment "a" (.Number 1) (.Number 7)) with
     | .ok _ st' => lookupA st'.int_arrays "a"
     | _ => none) = some [1, 7] :=
  ⟨rfl, rfl, rfl, rfl, rfl, rfl⟩

/-- C5: instantiating `B b(7);` where `B : A` inherits `int v` and
`B`'s `init` sets `v`, the constructor write-back loop walks only `B`'s
own (empty) field list, so `b.v` stays 0 after construction — the value
assigned during `init` is lost for inherited fields. The control case
`class C` with its own `int v` and the same `init` does end with
`c.v = 7`. -/
theorem C5_ctor_inherited_field_bug :
    (match execute 9 inheritSt (.ObjectInstantiation "B" "b" [.Number 7]) with
     | .ok _ st' => (lookupA st'.objects "b").map fun o => lookupA o.fields "v"
     | _ => none) = some (some (.vInt 0)) ∧
    (match execute 9 selfSt (.ObjectInstantiation "C" "c" [.Number 7]) with
     | .ok _ st' => (lookupA st'.objects "c").map fun o => lookupA o.fields "v"
     | _ => none) = some (some (.vInt 7)) :=
  ⟨rfl, rfl⟩

/-- C9: `run` is exactly the three passes in order; pass 1 executes
precisely the class-definition statements; pass 2 skips everything that
is not a default object instantiation; pass 3 skips class definitions
and default object instantiations and otherwise executes in source
order — so a call placed before its function's definition reaches
pass 3 with the function still unregistered and fails with the
undefined-function error. -/
theorem C9_three_passes (fuel n : Nat) (st st1 st2 : St) (stmts rest : List Stmt)
    (s : Stmt) (f : String) (args : List Expr) :
    (run fuel st stmts =
      (pass1 fuel st stmts).andThen fun _ s1 =>
        (pass2 fuel s1 stmts).andThen fun _ s2 => pass3 fuel s2 stmts) ∧
    (pass1 fuel st stmts = execAll fuel st (stmts.filter isClassDefStmt)) ∧
    (isDefaultObjInst st.class_defs s = false →
      pass2 fuel st (s :: rest) = pass2 fuel st rest) ∧
    (isClassDefStmt s = true → pass3 fuel st (s :: rest) = pass3 fuel st rest) ∧
    (isClassDefStmt s = false → isDefaultObjInst st.class_defs s = true →
      pass3 fuel st (s :: rest) = pass3 fuel st rest) ∧
    (pass1 (n + 2) st stmts = .ok () st1 →
      pass2 (n + 2) st1 stmts = .ok () st2 →
      lookupA st2.functions f = none →
      stmts = .ExprStatement (.CallExpr f args) :: rest →
      run (n + 2) st stmts = .err ("Undefined function: " ++ f)) := by
  refine ⟨rfl, ?_, ?_, ?_, ?_, ?_⟩
  · induction stmts generalizing st with
    | nil => rfl
    | cons s0 rest' ih =>
        by_cases hc : isClassDefStmt s0
        · simp only [pass1, List.filter_cons, hc, if_true, execAll]
          exact andThen_congr _ _ _ (fun _ stx => ih stx)
        · simp only [pass1, List.filter_cons, hc, if_false, execAll, Bool.false_eq_true]
          exact ih st
  · intro h; simp [pass2, h]
  · intro h; simp [pass3, h]
  · intro h1 h2; simp [pass3, h1, h2]
  · intro h1 h2 h3 h4
    subst h4
    simp [run, h1, h2, pass3, isClassDefStmt, isDefaultObjInst, execute, evalExpr, h3]

/-- C9 witness: `f(); ComeAndDo f() { return 5; }` fails with the
undefined-function error because the call executes in pass 3 before the
definition statement is reached. -/
theorem C9_witness :
    run 5 initialState [.ExprStatement (.CallExpr "f" []), .FunctionDef retFiveFn] =
      .err "Undefined function: f" :=
  (C9_three_passes 5 3 initialState initialState initialState
      [.ExprStatement (.CallExpr "f" []), .FunctionDef retFiveFn]
      [.FunctionDef retFiveFn] (.ExprStatement (.CallExpr "f" [])) "f" []).2.2.2.2.2
    rfl rfl rfl rfl

theorem resIntTagged_ofInt (n : Int) (st : St) : ResIntTagged (.ok (Value.ofInt n) st) := by
  intro v st' h
  cases h
  rfl

theorem resIntTagged_err (m : String) : ResIntTagged (.err m) :=
  fun _ _ h => Res.noConfusion h

theorem resIntTagged_ub : ResIntTagged .ub :=
  fun _ _ h => Res.noConfusion h

theorem resIntTagged_fuelOut : ResIntTagged .fuelOut :=
  fun _ _ h => Res.noConfusion h

theorem resIntTagged_andThen {α : Type} (r : Res α) (k : α → St → Res Value)
    (h : ∀ a st, ResIntTagged (k a st)) : ResIntTagged (r.andThen k) := by
  cases r with
  | ok a st => exact h a st
  | err m => exact resIntTagged_err m
  | ub => exact resIntTagged_ub
  | fuelOut => exact resIntTagged_fuelOut

/-- C10: every function call and every object method call that
completes produces an integer-tagged value (the body loop keeps the
return value as a C++ `int`, taking the `.i` projection of whatever the
return expression evaluated to), and the `Value` constructors zero the
integer payload of floating and string values, so such returns yield 0. -/
theorem C10_call_result_int (fuel : Nat) (st st1 st2 : St) (f : String)
    (args : List Expr) (obj : Expr) (m : String) (e : Expr) (w : Value) :
    ResIntTagged (evalExpr fuel st (.CallExpr f args)) ∧
    ResIntTagged (evalExpr fuel st (.ObjectMethodCall obj m args)) ∧
    (∀ q : Rat, (Value.ofFloat q).i = 0) ∧
    (∀ s : String, (Value.ofString s).i = 0) ∧
    (evalExpr fuel st1 e = .ok w st2 →
      runBody (fuel + 1) st1 [.Return (some e)] = .ok w.i st2) := by
  refine ⟨?_, ?_, fun _ => rfl, fun _ => rfl, ?_⟩
  · cases fuel with
    | zero => exact resIntTagged_fuelOut
    | succ n =>
        simp only [evalExpr]
        repeat' first
          | exact resIntTagged_ofInt _ _
          | exact resIntTagged_err _
          | exact resIntTagged_ub
          | exact resIntTagged_fuelOut
          | (apply resIntTagged_andThen; intro _ _)
          | split
  · cases fuel with
    | zero => exact resIntTagged_fuelOut
    | succ n =>
        simp only [evalExpr]
        repeat' first
          | exact resIntTagged_ofInt _ _
          | exact resIntTagged_err _
          | exact resIntTagged_ub
          | exact resIntTagged_fuelOut
          | (apply resIntTagged_andThen; intro _ _)
          | split
  · intro h
    simp [runBody, h]

/-- C10 witness: a call returning 5 is integer-tagged, a method call on
`o : M` is integer-tagged, and a body returning the float 1.5 makes the
call loop produce the integer 0. -/
theorem C10_witness :
    ((Value.ofInt 5).type = .INT) ∧ ((Value.ofInt 0).type = .INT) ∧
    runBody 9 initialState [.Return (some (.FloatLiteral (3 / 2)))] =
      .ok 0 initialState := by
  refine ⟨?_, ?_, ?_⟩
  · exact (C10_call_result_int 9 retFiveSt initialState initialState "f" []
      (.Variable "o") "m0" (.Number 0) (Value.ofInt 0)).1
      (Value.ofInt 5) retFiveSt rfl
  · exact (C10_call_result_int 9 methodSt initialState initialState "f" []
      (.Variable "o") "m0" (.Number 0) (Value.ofInt 0)).2.1
      (Value.ofInt 0) methodSt rfl
  · exact (C10_call_result_int 8 initialState initialState initialState "f" []
      (.Variable "o") "m0" (.FloatLiteral (3 / 2))
      (Value.ofFloat (3 / 2))).2.2.2.2 rfl

end TinyLang
